import Mathlib

set_option linter.unusedVariables false

/-!
Verification of the object-lifetime and scalar-abstraction substrate of the
TACS framework, embedded shallowly from src/src/TACSObject.h.

Doubles are modelled as exact rationals: every claim below is about the sign
and data-flow structure of the code, not about rounding.  Methods that are
only declared in the header (their bodies live in a translation unit that is
not part of the sources) are modelled from the specification; their doc
comments say so explicitly.
-/

namespace TACS

/-- Model of the C double. -/
abbrev TacsReal := ℚ

/-- Model of std::complex of double, aliased in the header as TacsComplex. -/
structure TacsComplex where
  re : TacsReal
  im : TacsReal
deriving DecidableEq, Repr

/-- Unary minus of std::complex: negates both components. -/
def TacsComplex.neg (c : TacsComplex) : TacsComplex := ⟨-c.re, -c.im⟩

/-- The implicit C++ conversion from double to std::complex of double:
the imaginary part defaults to zero. -/
def TacsComplex.ofReal (r : TacsReal) : TacsComplex := ⟨r, 0⟩

/-- RealPart( const TacsComplex& c ){ return real(c); } -/
def RealPartComplex (c : TacsComplex) : TacsReal := c.re

/-- RealPart( const double& r ){ return r; } (the dummy overload). -/
def RealPartReal (r : TacsReal) : TacsReal := r

/-- ImagPart( const TacsComplex& c ){ return imag(c); }  The header declares
no double overload: in the real build a double argument reaches this function
through TacsComplex.ofReal. -/
def ImagPart (c : TacsComplex) : TacsReal := c.im

/-- fabs( const TacsComplex& c ): if (real(c) < 0.0) return -c; return c; -/
def fabs (c : TacsComplex) : TacsComplex :=
  if c.re < 0 then c.neg else c

/-- State of a TACSObject: its private ref_count, plus a flag recording
whether delete has run, so that destruction events are observable. -/
structure TACSObject where
  ref_count : Int
  destroyed : Bool
deriving DecidableEq, Repr

/-- Modelled from the spec: TACSObject() is declared in the header, its body
is not among the sources.  The constructor initializes the count to zero,
meaning not yet owned. -/
def TACSObject.new : TACSObject := ⟨0, false⟩

/-- Modelled from the spec: incref() is declared in the header, its body is
not among the sources.  It increments the count by 1 and always succeeds. -/
def TACSObject.incref (o : TACSObject) : TACSObject :=
  { o with ref_count := o.ref_count + 1 }

/-- Modelled from the spec: decref() is declared in the header, its body is
not among the sources.  It decrements the count by 1 and, exactly when the
result is 0, triggers destruction of the instance. -/
def TACSObject.decref (o : TACSObject) : TACSObject :=
  if o.ref_count - 1 = 0 then ⟨o.ref_count - 1, true⟩
  else ⟨o.ref_count - 1, o.destroyed⟩

/-- refcount() returns the current count; pure observer. -/
def TACSObject.refcount (o : TACSObject) : Int := o.ref_count

/-- n successive calls to incref. -/
def increfs : Nat → TACSObject → TACSObject
  | 0, o => o
  | n + 1, o => increfs n o.incref

/-- n successive calls to decref. -/
def decrefs : Nat → TACSObject → TACSObject
  | 0, o => o
  | n + 1, o => decrefs n o.decref

/-- The scalar type of the default (real) build: TacsScalar is double. -/
abbrev TacsScalar := TacsReal

/-- TACSOptObject adds no fields to TACSObject; its three virtual methods
default to empty bodies. -/
structure TACSOptObject where
  base : TACSObject
deriving DecidableEq, Repr

/-- Default setDesignVars: empty body, so the object is returned unchanged
(the dvs array is const and cannot be written). -/
def TACSOptObject.setDesignVars (o : TACSOptObject)
    (dvs : List TacsScalar) (numDVs : Int) : TACSOptObject := o

/-- Default getDesignVars: empty body, so neither the object nor the
caller-supplied array changes. -/
def TACSOptObject.getDesignVars (o : TACSOptObject)
    (dvs : List TacsScalar) (numDVs : Int) : TACSOptObject × List TacsScalar :=
  (o, dvs)

/-- Default getDesignVarRange: empty body, so the object and both bound
arrays are unchanged. -/
def TACSOptObject.getDesignVarRange (o : TACSOptObject)
    (lowerBound upperBound : List TacsScalar) (numDVs : Int) :
    TACSOptObject × List TacsScalar × List TacsScalar :=
  (o, lowerBound, upperBound)

/-- TACSSparseConObject adds no fields; every virtual method defaults to
returning 0 without touching its arguments. -/
structure TACSSparseConObject where
  base : TACSOptObject
deriving DecidableEq, Repr

/-- Default isLinear: return 0. -/
def TACSSparseConObject.isLinear (o : TACSSparseConObject) : Int := 0

/-- Default getNumCon: return 0. -/
def TACSSparseConObject.getNumCon (o : TACSSparseConObject) : Int := 0

/-- Default getConCSRSize: return 0. -/
def TACSSparseConObject.getConCSRSize (o : TACSSparseConObject) : Int := 0

/-- Default getConRange: return 0, writing nothing into lb or ub. -/
def TACSSparseConObject.getConRange (o : TACSSparseConObject) (offset : Int)
    (lb ub : List TacsScalar) : Int × List TacsScalar × List TacsScalar :=
  (0, lb, ub)

/-- Default addConCSR: return 0, writing nothing into rowp or cols. -/
def TACSSparseConObject.addConCSR (o : TACSSparseConObject) (offset : Int)
    (rowp cols : List Int) : Int × List Int × List Int :=
  (0, rowp, cols)

/-- Default evalCon: return 0, writing nothing into con. -/
def TACSSparseConObject.evalCon (o : TACSSparseConObject) (offset : Int)
    (con : List TacsScalar) : Int × List TacsScalar :=
  (0, con)

/-- Default evalConDVSens: return 0, writing nothing into Acol. -/
def TACSSparseConObject.evalConDVSens (o : TACSSparseConObject) (offset : Int)
    (Acol : List TacsScalar) (rowp cols : List Int) : Int × List TacsScalar :=
  (0, Acol)

/-- The compile-time maximum thread count from the header:
static const int TACS_MAX_NUM_THREADS = 16. -/
def TACS_MAX_NUM_THREADS : Int := 16

/-- Modelled from the spec: the thread-count range policy.  The bodies of the
TACSThreadInfo constructor and setNumThreads are not among the sources; the
spec bounds the count to [1, TACS_MAX_NUM_THREADS] and recommends clamping,
applied consistently across the setters. -/
def clampThreads (n : Int) : Int := max 1 (min n TACS_MAX_NUM_THREADS)

/-- TACSThreadInfo stores one private integer thread count. -/
structure TACSThreadInfo where
  num_threads : Int
deriving DecidableEq, Repr

/-- Modelled from the spec: TACSThreadInfo( int _num_threads ) is declared in
the header, its body is not among the sources.  It stores the requested count
brought into [1, TACS_MAX_NUM_THREADS]. -/
def TACSThreadInfo.new (n : Int) : TACSThreadInfo := ⟨clampThreads n⟩

/-- Modelled from the spec: setNumThreads is declared in the header, its body
is not among the sources.  It applies the same range policy as the
constructor. -/
def TACSThreadInfo.setNumThreads (t : TACSThreadInfo) (n : Int) :
    TACSThreadInfo := ⟨clampThreads n⟩

/-- getNumThreads() returns the current count. -/
def TACSThreadInfo.getNumThreads (t : TACSThreadInfo) : Int := t.num_threads

/-- Process-wide initialization state: the initialized flag and a counter of
substrate (MPI reduction handle) registration events. -/
structure TacsGlobalState where
  initialized : Bool
  opRegistrations : Nat
deriving DecidableEq, Repr

/-- The state of the process before any call to TacsInitialize. -/
def TacsGlobalState.start : TacsGlobalState := ⟨false, 0⟩

/-- Modelled from the spec: TacsInitialize() is declared in the header, its
body is not among the sources.  On the first call it registers the substrate
reduction handles and sets the flag; a repeated call must not re-register
them. -/
def TacsInitialize (s : TacsGlobalState) : TacsGlobalState :=
  if s.initialized then s else ⟨true, s.opRegistrations + 1⟩

/-- Modelled from the spec: TacsIsInitialized() reports the process-wide
flag. -/
def TacsIsInitialized (s : TacsGlobalState) : Bool := s.initialized

/-! Helper lemmas about iterated incref and decref. -/

theorem increfs_eq (n : Nat) (o : TACSObject) :
    increfs n o = ⟨o.ref_count + n, o.destroyed⟩ := by
  induction n generalizing o with
  | zero => cases o; simp [increfs]
  | succ m ih =>
    simp only [increfs, ih, TACSObject.incref, TACSObject.mk.injEq]
    refine ⟨by push_cast; ring, trivial⟩

theorem decrefs_lt (k : Nat) (o : TACSObject) (h : (k : Int) < o.ref_count) :
    decrefs k o = ⟨o.ref_count - k, o.destroyed⟩ := by
  induction k generalizing o with
  | zero => cases o; simp [decrefs]
  | succ m ih =>
    have hne : ¬(o.ref_count - 1 = 0) := by push_cast at h; omega
    have hm : (m : Int) < (TACSObject.decref o).ref_count := by
      simp only [TACSObject.decref, if_neg hne]
      push_cast at h ⊢; omega
    simp only [decrefs]
    rw [ih _ hm]
    simp only [TACSObject.decref, if_neg hne, TACSObject.mk.injEq]
    refine ⟨by push_cast; ring, trivial⟩

theorem decrefs_succ (n : Nat) (o : TACSObject) :
    decrefs (n + 1) o = (decrefs n o).decref := by
  induction n generalizing o with
  | zero => simp [decrefs]
  | succ m ih => simpa [decrefs] using ih o.decref

theorem decref_one (d : Bool) : TACSObject.decref ⟨1, d⟩ = ⟨0, true⟩ := by
  simp [TACSObject.decref]

/-! The claims. -/

/-- C1: starting from a freshly constructed object with count 0, N calls to
incref followed by N calls to decref leave the object undestroyed with a
strictly positive count after every proper prefix of the decrefs, and the
final decref brings the count to 0 and triggers destruction — so destruction
happens exactly once, on the final decref, never while the count is
positive. -/
theorem incref_decref_cycle (N : Nat) (hN : 1 ≤ N) :
    (∀ k, k < N → (decrefs k (increfs N TACSObject.new)).destroyed = false ∧
        0 < (decrefs k (increfs N TACSObject.new)).refcount) ∧
    decrefs N (increfs N TACSObject.new) = ⟨0, true⟩ := by
  have hinc : increfs N TACSObject.new = ⟨(N : Int), false⟩ := by
    rw [increfs_eq]; simp [TACSObject.new]
  constructor
  · intro k hk
    have hk2 : (k : Int) < (TACSObject.mk (N : Int) false).ref_count := by
      simp only; exact_mod_cast hk
    rw [hinc, decrefs_lt k _ hk2]
    refine ⟨rfl, ?_⟩
    simp only [TACSObject.refcount]
    omega
  · obtain ⟨M, rfl⟩ := Nat.exists_eq_succ_of_ne_zero (by omega : N ≠ 0)
    have hM : (M : Int) < (TACSObject.mk ((M + 1 : Nat) : Int) false).ref_count := by
      simp only; push_cast; omega
    rw [hinc, decrefs_succ, decrefs_lt M _ hM]
    have hone : (TACSObject.mk ((TACSObject.mk ((M + 1 : Nat) : Int) false).ref_count - (M : Int))
        false) = ⟨1, false⟩ := by
      simp only [TACSObject.mk.injEq]
      refine ⟨by push_cast; ring, trivial⟩
    rw [hone, decref_one]

/-- C1 witness: the cycle at N = 3. -/
theorem incref_decref_cycle_witness :
    decrefs 3 (increfs 3 TACSObject.new) = ⟨0, true⟩ :=
  (incref_decref_cycle 3 (by decide)).2

/-- C2 counterexample: on a freshly constructed object (count 0), incref
followed by decref does trigger destruction — the count goes 0, 1, 0 and the
final transition to 0 destroys the object.  So the pair is not
destruction-free for every object. -/
theorem incref_decref_pair_destroys_fresh :
    (TACSObject.new.incref.decref).destroyed = true := by decide

/-- C2 amended: for every live object whose count is at least 1 before the
pair, incref followed by decref leaves refcount unchanged and triggers no
destruction. -/
theorem incref_decref_pair_noop (o : TACSObject) (h : 1 ≤ o.ref_count) :
    (o.incref.decref).refcount = o.refcount ∧
    (o.incref.decref).destroyed = o.destroyed := by
  have h0 : ¬o.ref_count = 0 := by omega
  simp [TACSObject.decref, TACSObject.incref, TACSObject.refcount, h0]

/-- C2 amended, witness: an object held by two owners. -/
theorem incref_decref_pair_noop_witness :
    1 ≤ (TACSObject.mk 2 false).ref_count ∧
    (((TACSObject.mk 2 false).incref.decref).refcount =
        (TACSObject.mk 2 false).refcount ∧
      ((TACSObject.mk 2 false).incref.decref).destroyed =
        (TACSObject.mk 2 false).destroyed) :=
  ⟨by decide, incref_decref_pair_noop (TACSObject.mk 2 false) (by decide)⟩

/-- C3: fabs on a complex scalar with negative real part returns the full
negation, whose real part is the positive magnitude of the original real
part and whose imaginary part is the negation of the original imaginary
part; with non-negative real part fabs returns its argument unchanged. -/
theorem fabs_sign_structure (c : TacsComplex) :
    (c.re < 0 → fabs c = c.neg ∧ (fabs c).re = |c.re| ∧ (fabs c).im = -c.im) ∧
    (0 ≤ c.re → fabs c = c) := by
  constructor
  · intro h
    simp [fabs, if_pos h, TacsComplex.neg, abs_of_neg h]
  · intro h
    simp [fabs, not_lt.mpr h]

/-- C3 witness: fabs at -2 + 3i and at 5 + 7i. -/
theorem fabs_sign_structure_witness :
    ((TacsComplex.mk (-2) 3).re < 0 ∧
      fabs ⟨-2, 3⟩ = TacsComplex.neg ⟨-2, 3⟩) ∧
    (0 ≤ (TacsComplex.mk 5 7).re ∧ fabs ⟨5, 7⟩ = ⟨5, 7⟩) :=
  ⟨⟨by norm_num, ((fabs_sign_structure ⟨-2, 3⟩).1 (by norm_num)).1⟩,
   ⟨by norm_num, (fabs_sign_structure ⟨5, 7⟩).2 (by norm_num)⟩⟩

/-- C4: in the real build TacsScalar is double and the header has no double
overload of ImagPart, so a scalar reaches the complex overload through the
implicit conversion, whose imaginary component is zero; imaginary-part
extraction therefore yields zero for every scalar. -/
theorem imagpart_real_mode_zero (r : TacsReal) :
    ImagPart (TacsComplex.ofReal r) = 0 := rfl

/-- C5: real-part extraction yields the primal value in both build
configurations: the double overload returns its argument and the complex
overload returns the real component. -/
theorem realpart_primal :
    (∀ r : TacsReal, RealPartReal r = r) ∧
    (∀ c : TacsComplex, RealPartComplex c = c.re) :=
  ⟨fun r => rfl, fun c => rfl⟩

/-- C6: TacsIsInitialized is false before any TacsInitialize, true after
one call and still true after a second call, and the second call registers
no further substrate reduction handles. -/
theorem tacs_initialization_idempotent :
    TacsIsInitialized TacsGlobalState.start = false ∧
    TacsIsInitialized (TacsInitialize TacsGlobalState.start) = true ∧
    TacsIsInitialized (TacsInitialize (TacsInitialize TacsGlobalState.start)) = true ∧
    (TacsInitialize (TacsInitialize TacsGlobalState.start)).opRegistrations =
      (TacsInitialize TacsGlobalState.start).opRegistrations := by
  decide

/-- C7: a TACSSparseConObject that overrides nothing returns 0 from every
protocol call and leaves every caller-supplied array unchanged, for every
offset and every choice of arrays. -/
theorem sparse_con_defaults_zero (o : TACSSparseConObject) (offset : Int)
    (lb ub con Acol : List TacsScalar) (rowp cols : List Int) :
    o.isLinear = 0 ∧ o.getNumCon = 0 ∧ o.getConCSRSize = 0 ∧
    o.getConRange offset lb ub = (0, lb, ub) ∧
    o.addConCSR offset rowp cols = (0, rowp, cols) ∧
    o.evalCon offset con = (0, con) ∧
    o.evalConDVSens offset Acol rowp cols = (0, Acol) :=
  ⟨rfl, rfl, rfl, rfl, rfl, rfl, rfl⟩

/-- C8: a TACSOptObject that overrides nothing is a complete no-op on every
design-variable call: the object and every caller-supplied array are
unchanged and no error is signalled (the calls return normally). -/
theorem opt_object_defaults_noop (o : TACSOptObject)
    (dvs lb ub : List TacsScalar) (numDVs : Int) :
    o.setDesignVars dvs numDVs = o ∧
    o.getDesignVars dvs numDVs = (o, dvs) ∧
    o.getDesignVarRange lb ub numDVs = (o, lb, ub) :=
  ⟨rfl, rfl, rfl⟩

/-- C9: after construction and after every setNumThreads call the stored
thread count lies in [1, TACS_MAX_NUM_THREADS]; an out-of-range argument is
clamped into range, by the same policy in the constructor and the setter,
and an in-range argument is stored as given. -/
theorem thread_count_bounded (t : TACSThreadInfo) (n : Int) :
    (1 ≤ (TACSThreadInfo.new n).num_threads ∧
      (TACSThreadInfo.new n).num_threads ≤ TACS_MAX_NUM_THREADS) ∧
    (1 ≤ (t.setNumThreads n).num_threads ∧
      (t.setNumThreads n).num_threads ≤ TACS_MAX_NUM_THREADS) ∧
    (t.setNumThreads n).num_threads = (TACSThreadInfo.new n).num_threads ∧
    (1 ≤ n → n ≤ TACS_MAX_NUM_THREADS → (TACSThreadInfo.new n).num_threads = n) := by
  simp only [TACSThreadInfo.new, TACSThreadInfo.setNumThreads, clampThreads,
    TACS_MAX_NUM_THREADS]
  norm_num
  omega

/-- C9 witness: the in-range request 5 on an object holding 4 threads. -/
theorem thread_count_bounded_witness :
    (1 : Int) ≤ 5 ∧ (5 : Int) ≤ TACS_MAX_NUM_THREADS ∧
    (TACSThreadInfo.new 5).num_threads = 5 :=
  ⟨by decide, by decide,
    (thread_count_bounded ⟨4⟩ 5).2.2.2 (by decide) (by decide)⟩

/-- C10: the compile-time maximum thread count is 16, so no thread count
produced by the constructor or the setter exceeds 16. -/
theorem max_threads_sixteen :
    TACS_MAX_NUM_THREADS = 16 ∧
    (∀ n : Int, (TACSThreadInfo.new n).num_threads ≤ 16) ∧
    (∀ (t : TACSThreadInfo) (n : Int), (t.setNumThreads n).num_threads ≤ 16) := by
  refine ⟨rfl, fun n => ?_, fun t n => ?_⟩ <;>
    · simp only [TACSThreadInfo.new, TACSThreadInfo.setNumThreads, clampThreads,
        TACS_MAX_NUM_THREADS]
      omega

end TACS
